import Mathlib

/-!
# Verification of the MedWiseAI donate/dispose core

Shallow embedding of the repository's decision logic:

* the server-side donate/dispose classifier (`src/server/routes/donateDispose.ts`,
  `getDonateDisposeRecommendation`);
* the client-side classifier (`getRecommendation` in the DonateDispose page);
* the expiry check of the OCR analysis (`src/server/services/aiService.ts`,
  `analyzeOCRText`);
* the retry/backoff wrapper (`callWithRetry` in `aiService.ts`);
* the TTL-cached medicine-details lookup (`getMedicineDetails` in `aiService.ts`);
* the distance ranking used by the donation-center search (sort + 15 km filter
  over haversine distances, client side).

Timestamps are modelled as integers (milliseconds); `startOfDay` models
`today.setHours(0,0,0,0)` (truncation of a timestamp to the start of its day).
-/

namespace MedWise

/-- Condition of the medicine, `'unopened' | 'opened' | 'partial'` in the source
(the third value is spelled `partUsed` here). -/
inductive Condition where
  | unopened
  | opened
  | partUsed
deriving DecidableEq, Repr

/-- `'prescription' | 'otc' | 'controlled' | 'not-sure'` in the source. -/
inductive MedicineType where
  | prescription
  | otc
  | controlled
  | notSure
deriving DecidableEq, Repr

/-- The medicine attributes consumed by both classifiers.  `expiryDate = none`
models an absent/empty expiry-date field (falsy in the source); otherwise it is
the parsed timestamp of the expiry date. -/
structure MedicineInfo where
  name : String
  expiryDate : Option Int
  condition : Condition
  medicineType : MedicineType
  expiryNotAvailable : Bool
deriving DecidableEq, Repr

/-- Milliseconds per day. -/
def msPerDay : Int := 86400000

/-- `today.setHours(0, 0, 0, 0)`: truncate a timestamp to the start of its day. -/
def startOfDay (t : Int) : Int := t - t % msPerDay

theorem startOfDay_le (t : Int) : startOfDay t ≤ t := by
  have h : 0 ≤ t % msPerDay := Int.emod_nonneg t (by decide)
  simp only [startOfDay]
  omega

/-- Server expiry check (`donateDispose.ts` lines 174-182): `isExpired` stays
`false` when no expiry date is given, and otherwise compares the expiry
strictly against the start of the current day. -/
def serverIsExpired (expiryDate : Option Int) (now : Int) : Bool :=
  match expiryDate with
  | some expiry => expiry < startOfDay now
  | none => false

/-- Client expiry check (`getRecommendation`): `expiry < new Date()` — the
comparison is against the current instant, with no truncation to midnight.
An absent date yields `false` (NaN comparisons are falsy in the source). -/
def clientIsExpired (expiryDate : Option Int) (now : Int) : Bool :=
  match expiryDate with
  | some expiry => expiry < now
  | none => false

/-- OCR expiry check (`aiService.ts`, `analyzeOCRText` lines 134-137):
`expiry < new Date()`, again against the current instant. -/
def ocrIsExpired (expiry now : Int) : Bool := expiry < now

/-- Static part of the server response: recommendation, reasoning and
instruction list (the dynamic fields — nearby centers, geocoded center,
message, timestamp — and the fixed `DISPOSAL_GUIDELINES` constant are not
referenced by the claims and are omitted). -/
structure ServerResult where
  recommendation : String
  reasoning : String
  instructions : List String
deriving DecidableEq, Repr

/-- The decision table of `getDonateDisposeRecommendation`
(`donateDispose.ts` lines 191-272), with the branches in source order. -/
def serverRecommend (info : MedicineInfo) (now : Int) : ServerResult :=
  let isExpired := serverIsExpired info.expiryDate now
  let isUnsure := info.medicineType = MedicineType.notSure
  let isControlled := info.medicineType = MedicineType.controlled
  if info.expiryNotAvailable then
    { recommendation := "Consult"
      reasoning := "Since the expiry date is not visible, we cannot confirm its safety. Consuming or donating medicine with an unknown expiry date poses significant health risks."
      instructions := [
        "Please consult a pharmacist for professional identification if possible.",
        "If the medicine cannot be identified, follow safe disposal guidelines.",
        "Do not share or donate this medicine."] }
  else if isExpired then
    { recommendation := "Dispose"
      reasoning := "This medicine has passed its expiration date. Expired medicines can be less effective or even risky due to changes in chemical composition."
      instructions := [
        "Do not consume or donate this medicine.",
        "Use a drug take-back program if available.",
        "If throwing in trash: Mix with unpalatable substance (dirt, kitty litter), seal in a bag, and scratch out personal info."] }
  else if isControlled then
    { recommendation := "Dispose"
      reasoning := "This is a controlled substance. These require strict handling and cannot be donated due to legal and safety regulations."
      instructions := [
        "Must be disposed of through authorized collectors or take-back programs.",
        "Check the DEA website for authorized disposal locations.",
        "Do not flush unless specifically instructed by the FDA \x27flush list\x27."] }
  else if isUnsure then
    { recommendation := "Consult"
      reasoning := "Safety First: Since you are unsure about the medicine type, we cannot provide an automated recommendation."
      instructions := [
        "Take the medicine to a local pharmacist for identification.",
        "Keep the medicine in its original packaging if possible.",
        "Do not consume or donate until professionally identified."] }
  else if info.condition ≠ Condition.unopened then
    { recommendation := "Dispose"
      reasoning := "This medicine has been opened or partially used. For safety and hygiene reasons, opened medicines should not be donated."
      instructions := [
        "Opened medicines can be contaminated or degraded.",
        "Dispose of following standard safe disposal procedures.",
        "Consider checking for a local pharmacy disposal kiosk."] }
  else
    { recommendation := "Donate"
      reasoning := "Based on general guidelines, this medicine may be eligible for donation. It is unexpired, unopened, and appears suitable for helping others."
      instructions := [
        "Keep the medicine in its original, sealed packaging.",
        "Store in a cool, dry place until you can donate.",
        "Contact the donation center first to confirm they accept this specific brand."] }

/-- `'keep' | 'donate' | 'dispose' | 'consult'` — the output kinds declared by
the client `Recommendation` interface. -/
inductive RecKind where
  | keep
  | donate
  | dispose
  | consult
deriving DecidableEq, Repr

/-- The client `Recommendation` record. -/
structure Recommendation where
  recommendation : RecKind
  reasoning : String
  instructions : List String
  resources : List String
  warnings : List String
deriving DecidableEq, Repr

/-- Bundle produced when the expiry date is marked not available. -/
def consultNoExpiryRec : Recommendation :=
  { recommendation := RecKind.consult
    reasoning := "Since the expiry date is not visible, we cannot confirm its safety. Consuming or donating medicine with an unknown expiry date poses significant health risks."
    instructions := [
      "Please consult a pharmacist for professional identification if possible.",
      "If the medicine cannot be identified, follow safe disposal guidelines.",
      "Do not share or donate this medicine."]
    resources := ["Pharmacist Consultation", "Safe Disposal Guidelines"]
    warnings := ["Unknown expiry dates are a major safety concern."] }

/-- Bundle produced for an expired medicine. -/
def disposeExpiredRec : Recommendation :=
  { recommendation := RecKind.dispose
    reasoning := "This medicine has passed its expiration date. Expired medicines can be less effective or even risky due to changes in chemical composition."
    instructions := [
      "Do not consume or donate this medicine.",
      "Use a drug take-back program if available.",
      "If throwing in trash: Mix with unpalatable substance (dirt, kitty litter), seal in a bag, and scratch out personal info."]
    resources := ["FDA Disposal Guidelines", "Local Pharmacy Take-back"]
    warnings := ["Expired medicines should never be shared or donated."] }

/-- Bundle produced for a controlled substance. -/
def disposeControlledRec : Recommendation :=
  { recommendation := RecKind.dispose
    reasoning := "This is a controlled substance. These require strict handling and cannot be donated due to legal and safety regulations."
    instructions := [
      "Must be disposed of through authorized collectors or take-back programs.",
      "Check the DEA website for authorized disposal locations.",
      "Do not flush unless specifically instructed by the FDA \x27flush list\x27."]
    resources := ["DEA Diversion Control Division", "Pharmacist Consultation"]
    warnings := ["Illegal to share or donate controlled substances."] }

/-- Bundle produced when the medicine type is unknown. -/
def consultNotSureRec : Recommendation :=
  { recommendation := RecKind.consult
    reasoning := "Safety First: Since you are unsure about the medicine type, we cannot provide an automated recommendation."
    instructions := [
      "Take the medicine to a local pharmacist for identification.",
      "Keep the medicine in its original packaging if possible.",
      "Do not consume or donate until professionally identified."]
    resources := ["Local Pharmacist", "Healthcare Provider"]
    warnings := ["Identifying unknown medicines yourself can be dangerous."] }

/-- Bundle produced for an opened/partially used medicine. -/
def disposeOpenedRec : Recommendation :=
  { recommendation := RecKind.dispose
    reasoning := "This medicine has been opened or partially used. For safety and hygiene reasons, opened medicines should not be donated."
    instructions := [
      "Opened medicines can be contaminated or degraded.",
      "Dispose of following standard safe disposal procedures.",
      "Consider checking for a local pharmacy disposal kiosk."]
    resources := ["Safe Disposal Guide"]
    warnings := ["Donating opened medicine is a safety risk to the recipient."] }

/-- Bundle produced for a donation-eligible medicine. -/
def donateRec : Recommendation :=
  { recommendation := RecKind.donate
    reasoning := "Based on general guidelines, this medicine may be eligible for donation. It is unexpired, unopened, and appears suitable for helping others."
    instructions := [
      "Keep the medicine in its original, sealed packaging.",
      "Store in a cool, dry place until you can donate.",
      "Contact the donation center first to confirm they accept this specific brand."]
    resources := ["Medicine Donation Centers", "Local Hospitals"]
    warnings := ["This is a general guideline; final acceptance is at the center\x27s discretion."] }

/-- The client classifier `getRecommendation` (DonateDispose page lines
793-886).  The input guard `!medicineInfo.name ||
(!medicineInfo.expiryDate && !expiryNotAvailable)` returns without producing a
recommendation (`none` here); otherwise the decision table runs in source
order. -/
def getRecommendation (info : MedicineInfo) (now : Int) : Option Recommendation :=
  if info.name = "" ∨ (info.expiryDate = none ∧ info.expiryNotAvailable = false) then
    none
  else some (
    if info.expiryNotAvailable then consultNoExpiryRec
    else if clientIsExpired info.expiryDate now then disposeExpiredRec
    else if info.medicineType = MedicineType.controlled then disposeControlledRec
    else if info.medicineType = MedicineType.notSure then consultNotSureRec
    else if info.condition ≠ Condition.unopened then disposeOpenedRec
    else donateRec)

/-- C1: with a known expiry date strictly before the current date, both the
server and the client classifier return the dispose disposition, whatever the
medicine type and condition are: the expiry check precedes the controlled,
unknown-type and condition checks. -/
theorem expiry_before_today_forces_dispose (info : MedicineInfo) (now e : Int)
    (hknown : info.expiryNotAvailable = false)
    (hdate : info.expiryDate = some e)
    (hbefore : e < startOfDay now) :
    (serverRecommend info now).recommendation = "Dispose" ∧
    (info.name ≠ "" → getRecommendation info now = some disposeExpiredRec) := by
  have hnow : e < now := lt_of_lt_of_le hbefore (startOfDay_le now)
  constructor
  · simp [serverRecommend, serverIsExpired, hknown, hdate, hbefore]
  · intro hname
    simp [getRecommendation, clientIsExpired, hknown, hdate, hname, hnow]

/-- C1 witness: a controlled, opened medicine expired one millisecond before
the start of the current day is told to dispose by both classifiers. -/
theorem expiry_before_today_forces_dispose_witness :
    ({ name := "Aspirin", expiryDate := some (-1), condition := Condition.opened,
       medicineType := MedicineType.controlled,
       expiryNotAvailable := false } : MedicineInfo).expiryNotAvailable = false ∧
    (-1 : Int) < startOfDay 0 ∧
    (serverRecommend
      { name := "Aspirin", expiryDate := some (-1), condition := Condition.opened,
        medicineType := MedicineType.controlled, expiryNotAvailable := false }
      0).recommendation = "Dispose" ∧
    getRecommendation
      { name := "Aspirin", expiryDate := some (-1), condition := Condition.opened,
        medicineType := MedicineType.controlled, expiryNotAvailable := false }
      0 = some disposeExpiredRec := by
  refine ⟨rfl, by decide, ?_⟩
  have h := expiry_before_today_forces_dispose
    { name := "Aspirin", expiryDate := some (-1), condition := Condition.opened,
      medicineType := MedicineType.controlled, expiryNotAvailable := false }
    0 (-1) rfl rfl (by decide)
  exact ⟨h.1, h.2 (by decide)⟩

/-- C2: when the expiry date is marked not available, both classifiers return
the consult disposition regardless of expiry date, condition and type. -/
theorem unknown_expiry_forces_consult (info : MedicineInfo) (now : Int)
    (hna : info.expiryNotAvailable = true) :
    (serverRecommend info now).recommendation = "Consult" ∧
    (info.name ≠ "" → getRecommendation info now = some consultNoExpiryRec) := by
  constructor
  · simp [serverRecommend, hna]
  · intro hname
    simp [getRecommendation, hna, hname]

/-- C2 witness: an expired, opened, controlled medicine with the
expiry-not-available flag set still yields consult in both classifiers. -/
theorem unknown_expiry_forces_consult_witness :
    ({ name := "Aspirin", expiryDate := some (-99), condition := Condition.opened,
       medicineType := MedicineType.controlled,
       expiryNotAvailable := true } : MedicineInfo).expiryNotAvailable = true ∧
    (serverRecommend
      { name := "Aspirin", expiryDate := some (-99), condition := Condition.opened,
        medicineType := MedicineType.controlled, expiryNotAvailable := true }
      0).recommendation = "Consult" ∧
    getRecommendation
      { name := "Aspirin", expiryDate := some (-99), condition := Condition.opened,
        medicineType := MedicineType.controlled, expiryNotAvailable := true }
      0 = some consultNoExpiryRec := by
  have h := unknown_expiry_forces_consult
    { name := "Aspirin", expiryDate := some (-99), condition := Condition.opened,
      medicineType := MedicineType.controlled, expiryNotAvailable := true }
    0 rfl
  exact ⟨rfl, h.1, h.2 (by decide)⟩

/-- C9: although the output type lists four kinds, no input ever produces the
keep disposition: the server classifier only emits the strings Consult,
Dispose or Donate, and the client classifier never returns the keep kind. -/
theorem keep_is_never_produced (info : MedicineInfo) (now : Int) :
    ((serverRecommend info now).recommendation = "Consult" ∨
     (serverRecommend info now).recommendation = "Dispose" ∨
     (serverRecommend info now).recommendation = "Donate") ∧
    (∀ r, getRecommendation info now = some r →
      r.recommendation ≠ RecKind.keep) := by
  constructor
  · simp only [serverRecommend]
    split_ifs <;> simp
  · intro r hr
    unfold getRecommendation at hr
    split_ifs at hr <;> simp_all <;>
      simp [← hr, consultNoExpiryRec, disposeExpiredRec, disposeControlledRec,
        consultNotSureRec, disposeOpenedRec, donateRec]

/-- C9 witness: a concrete donate-eligible input yields one of the three
non-keep server recommendations, and the client bundle it produces does not
carry the keep kind. -/
theorem keep_is_never_produced_witness :
    ((serverRecommend
      { name := "Med", expiryDate := some 10, condition := Condition.unopened,
        medicineType := MedicineType.otc, expiryNotAvailable := false }
      5).recommendation = "Consult" ∨
     (serverRecommend
      { name := "Med", expiryDate := some 10, condition := Condition.unopened,
        medicineType := MedicineType.otc, expiryNotAvailable := false }
      5).recommendation = "Dispose" ∨
     (serverRecommend
      { name := "Med", expiryDate := some 10, condition := Condition.unopened,
        medicineType := MedicineType.otc, expiryNotAvailable := false }
      5).recommendation = "Donate") ∧
    donateRec.recommendation ≠ RecKind.keep := by
  have h := keep_is_never_produced
    { name := "Med", expiryDate := some 10, condition := Condition.unopened,
      medicineType := MedicineType.otc, expiryNotAvailable := false } 5
  exact ⟨h.1, h.2 donateRec (by decide)⟩

/-- C3: the classifiers return the donate disposition exactly when the expiry
is not marked unavailable, the expiry check does not fire, the type is neither
controlled nor unknown, and the condition is unopened; and every client
disposition is one of the six fixed instruction/resource/warning bundles. -/
theorem donate_characterization (info : MedicineInfo) (now : Int) :
    ((serverRecommend info now).recommendation = "Donate" ↔
      (info.expiryNotAvailable = false ∧
       serverIsExpired info.expiryDate now = false ∧
       info.medicineType ≠ MedicineType.controlled ∧
       info.medicineType ≠ MedicineType.notSure ∧
       info.condition = Condition.unopened)) ∧
    (∀ r, getRecommendation info now = some r →
      ((r.recommendation = RecKind.donate ↔
        (info.expiryNotAvailable = false ∧
         clientIsExpired info.expiryDate now = false ∧
         info.medicineType ≠ MedicineType.controlled ∧
         info.medicineType ≠ MedicineType.notSure ∧
         info.condition = Condition.unopened)) ∧
       r ∈ [consultNoExpiryRec, disposeExpiredRec, disposeControlledRec,
            consultNotSureRec, disposeOpenedRec, donateRec])) := by
  constructor
  · simp only [serverRecommend]
    split_ifs <;> simp_all
  · intro r hr
    simp only [getRecommendation] at hr
    split_ifs at hr <;> simp_all <;>
      simp [← hr, consultNoExpiryRec, disposeExpiredRec, disposeControlledRec,
        consultNotSureRec, disposeOpenedRec, donateRec]

/-- C3 witness: an unexpired, unopened OTC medicine matches the donate
characterization on the server side, and the donate bundle is one of the six
fixed bundles. -/
theorem donate_characterization_witness :
    (serverRecommend
      { name := "Med", expiryDate := some 10, condition := Condition.unopened,
        medicineType := MedicineType.otc, expiryNotAvailable := false }
      5).recommendation = "Donate" ∧
    donateRec ∈ [consultNoExpiryRec, disposeExpiredRec, disposeControlledRec,
      consultNotSureRec, disposeOpenedRec, donateRec] := by
  have h := donate_characterization
    { name := "Med", expiryDate := some 10, condition := Condition.unopened,
      medicineType := MedicineType.otc, expiryNotAvailable := false } 5
  refine ⟨h.1.mpr ⟨rfl, by decide, by decide, by decide, rfl⟩, ?_⟩
  exact (h.2 donateRec (by decide)).2

/-- C4 counterexample: at noon of the current day (timestamp 43200000, whose
day starts at 0), a medicine whose expiry date is that same day (timestamp 0)
is classified as expired by the client classifier (dispose) and by the OCR
expiry check, so the strict comparison against the start of the current day
does not hold in every classification path. -/
theorem sameDay_expiry_counterexample :
    startOfDay 43200000 = 0 ∧
    getRecommendation
      { name := "Med", expiryDate := some 0, condition := Condition.unopened,
        medicineType := MedicineType.otc, expiryNotAvailable := false }
      43200000 = some disposeExpiredRec ∧
    ocrIsExpired 0 43200000 = true := by
  refine ⟨by decide, ?_, by decide⟩
  simp [getRecommendation, clientIsExpired]

/-- C4 amended: only the server route compares the expiry strictly against the
start of the current day (so a same-day expiry is not expired there and the
medicine can still be donated); the client classifier and the OCR analysis
compare the expiry against the current instant, so a same-day expiry evaluated
after midnight is classified as expired (dispose) in those paths. -/
theorem sameDay_expiry_boundary (now : Int) (name : String)
    (hname : name ≠ "") (hmid : startOfDay now < now) :
    serverIsExpired (some (startOfDay now)) now = false ∧
    (serverRecommend
      { name := name, expiryDate := some (startOfDay now),
        condition := Condition.unopened, medicineType := MedicineType.otc,
        expiryNotAvailable := false } now).recommendation = "Donate" ∧
    clientIsExpired (some (startOfDay now)) now = true ∧
    getRecommendation
      { name := name, expiryDate := some (startOfDay now),
        condition := Condition.unopened, medicineType := MedicineType.otc,
        expiryNotAvailable := false } now = some disposeExpiredRec ∧
    ocrIsExpired (startOfDay now) now = true := by
  have hsrv : serverIsExpired (some (startOfDay now)) now = false := by
    simp [serverIsExpired]
  refine ⟨hsrv, ?_, ?_, ?_, ?_⟩
  · simp [serverRecommend, hsrv]
  · simp [clientIsExpired, hmid]
  · simp [getRecommendation, clientIsExpired, hname, hmid]
  · simp [ocrIsExpired, hmid]

/-- C4 amended witness: at noon (43200000 ms) a medicine expiring at the start
of that day (0 ms) is donate-eligible on the server but expired for the client
classifier and the OCR check. -/
theorem sameDay_expiry_boundary_witness :
    ("Med" : String) ≠ "" ∧ startOfDay 43200000 < 43200000 ∧
    (serverRecommend
      { name := "Med", expiryDate := some (startOfDay 43200000),
        condition := Condition.unopened, medicineType := MedicineType.otc,
        expiryNotAvailable := false } 43200000).recommendation = "Donate" ∧
    getRecommendation
      { name := "Med", expiryDate := some (startOfDay 43200000),
        condition := Condition.unopened, medicineType := MedicineType.otc,
        expiryNotAvailable := false } 43200000 = some disposeExpiredRec := by
  have h := sameDay_expiry_boundary 43200000 "Med" (by decide) (by decide)
  exact ⟨by decide, by decide, h.2.1, h.2.2.2.1⟩

/-! ## The retry/backoff wrapper (`callWithRetry` in `aiService.ts`) -/

/-- `d.reason` of an entry of `error.errorDetails`. -/
structure ErrorDetail where
  reason : String
deriving DecidableEq, Repr

/-- The parts of a thrown error inspected by `callWithRetry`: `error?.status`,
`error?.message`, `error?.errorDetails` (each may be absent). -/
structure ApiError where
  status : Option Nat
  message : Option String
  errorDetails : Option (List ErrorDetail)
deriving DecidableEq, Repr

/-- `message.includes(pat)`: substring test. -/
def strIncludes (s pat : String) : Bool := decide (pat.toList <:+: s.toList)

/-- The rate-limit test of `callWithRetry` (`aiService.ts` lines 28-31):
status 429, a message containing `429` or `Too Many Requests`, or an error
detail with reason `RATE_LIMIT_EXCEEDED`. -/
def isRateLimit (e : ApiError) : Bool :=
  e.status == some 429 ||
  (match e.message with
   | some m => strIncludes m "429" || strIncludes m "Too Many Requests"
   | none => false) ||
  (match e.errorDetails with
   | some ds => ds.any fun d => d.reason == "RATE_LIMIT_EXCEEDED"
   | none => false)

/-- Outcome of one invocation of the wrapped operation `fn`. -/
inductive AttemptOutcome (α : Type) where
  | ok (value : α)
  | err (error : ApiError)
deriving DecidableEq, Repr

/-- The retry loop of `callWithRetry` (`aiService.ts` lines 17-44).  `fn i` is
the outcome of the `i`-th invocation of the operation; `i` is the loop
counter, `delay` the current backoff delay and `lastError` the last stored
error.  The result pairs the returned value (or the thrown error, `none`
standing for the undefined `lastError` thrown when `retries = 0`) with the
list of sleeps performed, in order. -/
def callWithRetryGo {α : Type} (fn : Nat → AttemptOutcome α) (retries : Nat)
    (i : Nat) (delay : Nat) (lastError : Option ApiError) (sleeps : List Nat) :
    Except (Option ApiError) α × List Nat :=
  if i < retries then
    match fn i with
    | .ok v => (Except.ok v, sleeps)
    | .err e =>
      if isRateLimit e ∧ i < retries - 1 then
        callWithRetryGo fn retries (i + 1) (delay * 2) (some e) (sleeps ++ [delay])
      else
        (Except.error (some e), sleeps)
  else
    (Except.error lastError, sleeps)
termination_by retries - i

/-- `callWithRetry(fn, retries, initialDelay)`. -/
def callWithRetry {α : Type} (fn : Nat → AttemptOutcome α)
    (retries : Nat) (initialDelay : Nat) : Except (Option ApiError) α × List Nat :=
  callWithRetryGo fn retries 0 initialDelay none []

/-- The geometric backoff schedule `[delay, 2*delay, ..., 2^(k-1)*delay]`. -/
def backoffSleeps (delay k : Nat) : List Nat :=
  (List.range k).map fun j => delay * 2 ^ j

theorem backoffSleeps_zero (delay : Nat) : backoffSleeps delay 0 = [] := rfl

theorem backoffSleeps_succ (delay k : Nat) :
    backoffSleeps delay (k + 1) = delay :: backoffSleeps (delay * 2) k := by
  simp only [backoffSleeps, List.range_succ_eq_map, List.map_cons, List.map_map]
  congr 1
  · simp
  · apply List.map_congr_left
    intro j _
    simp [pow_succ]
    ring

/-- After `k` rate-limited failures starting at position `i`, the loop reaches
attempt `i + k` having slept the geometric schedule; if that attempt fails
with a non-rate-limited error, or is the last allowed attempt, the error is
thrown at once with no further sleep. -/
theorem callWithRetryGo_err {α : Type} (fn : Nat → AttemptOutcome α)
    (retries : Nat) :
    ∀ (k i delay : Nat) (lastError : Option ApiError) (sleeps : List Nat)
      (e : ApiError),
      i + k < retries →
      (∀ j, j < k → ∃ ej, fn (i + j) = .err ej ∧ isRateLimit ej = true) →
      fn (i + k) = .err e →
      (isRateLimit e = false ∨ i + k = retries - 1) →
      callWithRetryGo fn retries i delay lastError sleeps =
        (Except.error (some e), sleeps ++ backoffSleeps delay k)
  | 0, i, delay, lastError, sleeps, e, hlt, _hprev, hfail, hlast => by
    rw [callWithRetryGo]
    simp only [Nat.add_zero] at hlt hfail hlast
    have hcond : ¬ (isRateLimit e = true ∧ i < retries - 1) := by
      rcases hlast with h | h
      · simp [h]
      · omega
    rw [if_pos hlt, hfail]
    dsimp only
    rw [if_neg hcond]
    simp [backoffSleeps_zero]
  | k + 1, i, delay, lastError, sleeps, e, hlt, hprev, hfail, hlast => by
    obtain ⟨e0, he0, hrl0⟩ := hprev 0 (Nat.succ_pos k)
    rw [callWithRetryGo]
    rw [if_pos (by omega)]
    simp only [Nat.add_zero] at he0
    rw [he0]
    dsimp only
    rw [if_pos ⟨hrl0, by omega⟩]
    have ih := callWithRetryGo_err fn retries k (i + 1) (delay * 2) (some e0)
      (sleeps ++ [delay]) e (by omega)
      (fun j hj => by
        obtain ⟨ej, hej, hrlj⟩ := hprev (j + 1) (by omega)
        exact ⟨ej, by rw [show i + 1 + j = i + (j + 1) by omega]; exact hej, hrlj⟩)
      (by rw [show i + 1 + k = i + (k + 1) by omega]; exact hfail)
      (by rcases hlast with h | h
          · exact Or.inl h
          · exact Or.inr (by omega))
    rw [ih, backoffSleeps_succ]
    simp

/-- After `k` rate-limited failures, a success on attempt `i + k` returns the
value with the geometric sleep schedule and nothing more. -/
theorem callWithRetryGo_ok {α : Type} (fn : Nat → AttemptOutcome α)
    (retries : Nat) :
    ∀ (k i delay : Nat) (lastError : Option ApiError) (sleeps : List Nat)
      (v : α),
      i + k < retries →
      (∀ j, j < k → ∃ ej, fn (i + j) = .err ej ∧ isRateLimit ej = true) →
      fn (i + k) = .ok v →
      callWithRetryGo fn retries i delay lastError sleeps =
        (Except.ok v, sleeps ++ backoffSleeps delay k)
  | 0, i, delay, lastError, sleeps, v, hlt, _hprev, hok => by
    rw [callWithRetryGo]
    simp only [Nat.add_zero] at hlt hok
    rw [if_pos hlt, hok]
    dsimp only
    simp [backoffSleeps_zero]
  | k + 1, i, delay, lastError, sleeps, v, hlt, hprev, hok => by
    obtain ⟨e0, he0, hrl0⟩ := hprev 0 (Nat.succ_pos k)
    rw [callWithRetryGo]
    rw [if_pos (by omega)]
    simp only [Nat.add_zero] at he0
    rw [he0]
    dsimp only
    rw [if_pos ⟨hrl0, by omega⟩]
    have ih := callWithRetryGo_ok fn retries k (i + 1) (delay * 2) (some e0)
      (sleeps ++ [delay]) v (by omega)
      (fun j hj => by
        obtain ⟨ej, hej, hrlj⟩ := hprev (j + 1) (by omega)
        exact ⟨ej, by rw [show i + 1 + j = i + (j + 1) by omega]; exact hej, hrlj⟩)
      (by rw [show i + 1 + k = i + (k + 1) by omega]; exact hok)
    rw [ih, backoffSleeps_succ]
    simp

/-- C5: with three attempts and two rate-limited failures followed by a
success, `callWithRetry` returns the third attempt's value, sleeping exactly
the initial delay and then twice the initial delay, which sum to three times
the initial delay. -/
theorem retry_two_rate_limits_then_success {α : Type}
    (fn : Nat → AttemptOutcome α) (initialDelay : Nat) (v : α)
    (e1 e2 : ApiError)
    (h0 : fn 0 = .err e1) (h1 : fn 1 = .err e2) (h2 : fn 2 = .ok v)
    (hrl1 : isRateLimit e1 = true) (hrl2 : isRateLimit e2 = true) :
    callWithRetry fn 3 initialDelay =
      (Except.ok v, [initialDelay, 2 * initialDelay]) ∧
    [initialDelay, 2 * initialDelay].sum = 3 * initialDelay := by
  constructor
  · have h := callWithRetryGo_ok fn 3 2 0 initialDelay none [] v (by omega)
      (fun j hj => by
        interval_cases j
        · exact ⟨e1, h0, hrl1⟩
        · exact ⟨e2, h1, hrl2⟩)
      h2
    have hlist : backoffSleeps initialDelay 2 = [initialDelay, 2 * initialDelay] := by
      simp [backoffSleeps, List.range_succ, pow_succ]
      omega
    rw [callWithRetry, h, hlist]
    simp
  · simp [List.sum_cons]
    ring

/-- C5 witness: a concrete operation failing twice with status 429 then
returning 7 yields 7 after sleeping 2000 ms and 4000 ms. -/
theorem retry_two_rate_limits_then_success_witness :
    (fun n => if n = 0 then AttemptOutcome.err ⟨some 429, none, none⟩
      else if n = 1 then AttemptOutcome.err ⟨none, some "Too Many Requests", none⟩
      else AttemptOutcome.ok (7 : Nat)) 0
      = AttemptOutcome.err ⟨some 429, none, none⟩ ∧
    isRateLimit ⟨some 429, none, none⟩ = true ∧
    isRateLimit ⟨none, some "Too Many Requests", none⟩ = true ∧
    callWithRetry
      (fun n => if n = 0 then AttemptOutcome.err ⟨some 429, none, none⟩
        else if n = 1 then AttemptOutcome.err ⟨none, some "Too Many Requests", none⟩
        else AttemptOutcome.ok (7 : Nat)) 3 2000
      = (Except.ok 7, [2000, 2 * 2000]) := by
  refine ⟨rfl, by decide, by decide, ?_⟩
  exact (retry_two_rate_limits_then_success _ 2000 7
    ⟨some 429, none, none⟩ ⟨none, some "Too Many Requests", none⟩
    rfl rfl rfl (by decide) (by decide)).1

/-- C6: if the first `i` attempts fail rate-limited and attempt `i` fails with
an error that is either not rate-limited or occurs on the last allowed
attempt, `callWithRetry` propagates that error: the result is that error, and
the only sleeps are the `i` backoff sleeps of the earlier retries (so a
non-rate-limited failure is rethrown at once, and exhausting all attempts
rethrows the last error — no error is swallowed and no substitute value is
returned). -/
theorem retry_propagates_last_error {α : Type} (fn : Nat → AttemptOutcome α)
    (retries initialDelay i : Nat) (e : ApiError)
    (hi : i < retries)
    (hprev : ∀ j, j < i → ∃ ej, fn j = .err ej ∧ isRateLimit ej = true)
    (hfail : fn i = .err e)
    (hlast : isRateLimit e = false ∨ i = retries - 1) :
    callWithRetry fn retries initialDelay =
      (Except.error (some e), backoffSleeps initialDelay i) := by
  have h := callWithRetryGo_err fn retries i 0 initialDelay none [] e
    (by omega) (fun j hj => by simpa using hprev j hj) (by simpa using hfail)
    (by rcases hlast with h | h
        · exact Or.inl h
        · exact Or.inr (by omega))
  rw [callWithRetry, h]
  simp

/-- C6 witness: an operation whose first attempt throws a non-rate-limited
error makes `callWithRetry` rethrow that error immediately, with no sleeps. -/
theorem retry_propagates_last_error_witness :
    (fun _ => AttemptOutcome.err (α := Nat) ⟨none, some "boom", none⟩) 0
      = AttemptOutcome.err ⟨none, some "boom", none⟩ ∧
    isRateLimit ⟨none, some "boom", none⟩ = false ∧
    callWithRetry (fun _ => AttemptOutcome.err (α := Nat) ⟨none, some "boom", none⟩)
      3 2000 = (Except.error (some ⟨none, some "boom", none⟩), []) := by
  refine ⟨rfl, by decide, ?_⟩
  have h := retry_propagates_last_error
    (fun _ => AttemptOutcome.err (α := Nat) ⟨none, some "boom", none⟩) 3 2000 0
    ⟨none, some "boom", none⟩ (by omega) (fun j hj => absurd hj (by omega))
    rfl (Or.inl (by decide))
  simpa [backoffSleeps] using h

/-! ## The TTL-cached medicine-details lookup (`getMedicineDetails`) -/

/-- The JSON structure requested from the remote service for a medicine. -/
structure MedicineDetails where
  name : String
  category : String
  description : String
  dosage : String
  warnings : List String
  sideEffects : List String
  uses : List String
deriving DecidableEq, Repr

/-- `createFallbackMedicineDetails` (`aiService.ts` lines 394-404). -/
def createFallbackMedicineDetails (medicineName : String) : MedicineDetails :=
  { name := medicineName
    category := "Unknown"
    description := "Details currently unavailable"
    dosage := "Consult a healthcare provider"
    warnings := ["Consult a doctor before use"]
    sideEffects := []
    uses := [] }

/-- `medicineName.toLowerCase()`: lowercase every character.  (Modelled over
the character list so that concrete keys evaluate by kernel reduction.) -/
def jsToLower (s : String) : String := String.mk (s.data.map Char.toLower)

/-- `String.prototype.trim()`: strip leading and trailing whitespace. -/
def jsTrim (s : String) : String :=
  String.mk (((s.data.dropWhile Char.isWhitespace).reverse.dropWhile
    Char.isWhitespace).reverse)

/-- `medicineName.toLowerCase().trim()` — the cache-key normalization. -/
def normalizeKey (s : String) : String := jsTrim (jsToLower s)

/-- A `medicineCache` entry: `{ data, timestamp }`. -/
structure CacheEntry where
  data : MedicineDetails
  timestamp : Int
deriving DecidableEq, Repr

/-- The in-memory `Map` holding the cache, as an association list. -/
def MedicineCache := List (String × CacheEntry)

/-- `Map.prototype.set`: insert or overwrite the entry for a key. -/
def mapSet (cache : List (String × CacheEntry)) (key : String)
    (entry : CacheEntry) : List (String × CacheEntry) :=
  (key, entry) :: cache.filter fun p => p.1 ≠ key

/-- `CACHE_TTL = 1000 * 60 * 60` (one hour, in milliseconds). -/
def CACHE_TTL : Int := 1000 * 60 * 60

/-- Outcome of the remote call made on a cache miss: the call threw (after
retries), the response text was empty, the cleaned text was the literal
`null`, the JSON parse failed, or the parse produced a structure. -/
inductive RemoteOutcome where
  | throwErr
  | emptyContent
  | nullLiteral
  | parseFailed
  | parsed (d : MedicineDetails)
deriving DecidableEq, Repr

/-- The remote part of `getMedicineDetails` (`aiService.ts` lines 291-336):
the fallback is returned on a thrown error, empty content or parse failure
and nothing is cached; `null` content returns null (`none`) uncached; only a
successfully parsed structure is stored in the cache.  The third component
records that the remote producer was invoked. -/
def medicineRemoteStep (cache : List (String × CacheEntry)) (now : Int)
    (medicineName normalizedName : String) (remote : RemoteOutcome) :
    Option MedicineDetails × List (String × CacheEntry) × Bool :=
  match remote with
  | .throwErr => (some (createFallbackMedicineDetails medicineName), cache, true)
  | .emptyContent => (some (createFallbackMedicineDetails medicineName), cache, true)
  | .nullLiteral => (none, cache, true)
  | .parseFailed => (some (createFallbackMedicineDetails medicineName), cache, true)
  | .parsed d => (some d, mapSet cache normalizedName ⟨d, now⟩, true)

/-- `getMedicineDetails(medicineName)` (`aiService.ts` lines 281-337): the key
is lowercased and trimmed; a live cache entry (age < TTL) is returned without
calling the remote producer; otherwise the remote step runs.  Returns the
result, the cache after the call, and whether the producer was invoked. -/
def getMedicineDetails (cache : List (String × CacheEntry)) (now : Int)
    (medicineName : String) (remote : RemoteOutcome) :
    Option MedicineDetails × List (String × CacheEntry) × Bool :=
  let normalizedName := normalizeKey medicineName
  match cache.lookup normalizedName with
  | some cached =>
    if now - cached.timestamp < CACHE_TTL then
      (some cached.data, cache, false)
    else
      medicineRemoteStep cache now medicineName normalizedName remote
  | none => medicineRemoteStep cache now medicineName normalizedName remote

/-- C7 counterexample: two lookups within the TTL whose keys differ only in
case and surrounding whitespace, where the first remote call throws: nothing
is cached, so the second call invokes the producer again — the producer runs
twice, not exactly once. -/
theorem cached_lookup_counterexample :
    normalizeKey "Aspirin " = normalizeKey "aspirin" ∧
    (1 : Int) - 0 < CACHE_TTL ∧
    (getMedicineDetails [] 0 "Aspirin " RemoteOutcome.throwErr).2.2 = true ∧
    (getMedicineDetails (getMedicineDetails [] 0 "Aspirin " RemoteOutcome.throwErr).2.1
      1 "aspirin" RemoteOutcome.throwErr).2.2 = true := by
  refine ⟨by decide, by decide, rfl, rfl⟩

/-- C7 amended: when the first call's remote response parses successfully (so
the value is stored), a second call within the TTL whose key normalizes to the
same lowercased, trimmed string returns the cached value without invoking the
producer: across the two calls the producer runs exactly once.  (If the first
call fails, nothing is cached and the second call invokes the producer
again — see the counterexample.) -/
theorem cached_lookup_single_producer_call (name1 name2 : String)
    (now1 now2 : Int) (d : MedicineDetails) (remote2 : RemoteOutcome)
    (hnorm : normalizeKey name1 = normalizeKey name2)
    (httl : now2 - now1 < CACHE_TTL) :
    (getMedicineDetails [] now1 name1 (RemoteOutcome.parsed d)).2.2 = true ∧
    getMedicineDetails
      (getMedicineDetails [] now1 name1 (RemoteOutcome.parsed d)).2.1
      now2 name2 remote2 =
      (some d, (getMedicineDetails [] now1 name1 (RemoteOutcome.parsed d)).2.1,
        false) := by
  constructor
  · rfl
  · have hfirst :
        (getMedicineDetails [] now1 name1 (RemoteOutcome.parsed d)).2.1 =
          [(normalizeKey name1, ⟨d, now1⟩)] := rfl
    rw [hfirst]
    simp only [getMedicineDetails, ← hnorm]
    simp [List.lookup, httl]

/-- C7 amended witness: looking up `"Aspirin "` then `"aspirin"` one
millisecond later, with the first response parsed, hits the cache on the
second call without invoking the producer. -/
theorem cached_lookup_single_producer_call_witness :
    normalizeKey "Aspirin " = normalizeKey "aspirin" ∧
    (1 : Int) - 0 < CACHE_TTL ∧
    (getMedicineDetails [] 0 "Aspirin "
      (RemoteOutcome.parsed (createFallbackMedicineDetails "x"))).2.2 = true ∧
    getMedicineDetails
      (getMedicineDetails [] 0 "Aspirin "
        (RemoteOutcome.parsed (createFallbackMedicineDetails "x"))).2.1
      1 "aspirin" RemoteOutcome.throwErr =
      (some (createFallbackMedicineDetails "x"),
        (getMedicineDetails [] 0 "Aspirin "
          (RemoteOutcome.parsed (createFallbackMedicineDetails "x"))).2.1,
        false) := by
  have h := cached_lookup_single_producer_call "Aspirin " "aspirin" 0 1
    (createFallbackMedicineDetails "x") RemoteOutcome.throwErr (by decide)
    (by decide)
  exact ⟨by decide, by decide, h.1, h.2⟩

/-- C10: the cache is written only with successfully parsed remote data — for
every call the cache is either unchanged or extended with the parsed
structure; and on a remote failure, an empty response or a parse failure the
static fallback is returned (whenever the producer actually ran) while the
cache is left untouched. -/
theorem cache_only_stores_parsed_data (cache : List (String × CacheEntry))
    (now : Int) (name : String) (remote : RemoteOutcome) :
    ((getMedicineDetails cache now name remote).2.1 = cache ∨
      ∃ d, remote = RemoteOutcome.parsed d ∧
        (getMedicineDetails cache now name remote).2.1 =
          mapSet cache (normalizeKey name) ⟨d, now⟩) ∧
    ((remote = RemoteOutcome.throwErr ∨ remote = RemoteOutcome.emptyContent ∨
        remote = RemoteOutcome.parseFailed) →
      (getMedicineDetails cache now name remote).2.1 = cache ∧
      ((getMedicineDetails cache now name remote).2.2 = true →
        (getMedicineDetails cache now name remote).1 =
          some (createFallbackMedicineDetails name))) := by
  constructor
  · simp only [getMedicineDetails]
    cases hl : cache.lookup (normalizeKey name) with
    | some cached =>
      by_cases hfresh : now - cached.timestamp < CACHE_TTL
      · simp [hl, hfresh]
      · cases remote <;> simp [hl, hfresh, medicineRemoteStep]
    | none => cases remote <;> simp [hl, medicineRemoteStep]
  · intro hfail
    simp only [getMedicineDetails]
    cases hl : cache.lookup (normalizeKey name) with
    | some cached =>
      by_cases hfresh : now - cached.timestamp < CACHE_TTL
      · simp [hl, hfresh]
      · rcases hfail with h | h | h <;> subst h <;>
          simp [hl, hfresh, medicineRemoteStep]
    | none =>
      rcases hfail with h | h | h <;> subst h <;>
        simp [hl, medicineRemoteStep]

/-- C10 witness: a throwing remote call on an empty cache returns the fallback
and leaves the cache empty. -/
theorem cache_only_stores_parsed_data_witness :
    (getMedicineDetails [] 0 "Dolo 650" RemoteOutcome.throwErr).2.1 = [] ∧
    (getMedicineDetails [] 0 "Dolo 650" RemoteOutcome.throwErr).1 =
      some (createFallbackMedicineDetails "Dolo 650") := by
  have h := (cache_only_stores_parsed_data [] 0 "Dolo 650"
    RemoteOutcome.throwErr).2 (Or.inl rfl)
  exact ⟨h.1, h.2 rfl⟩

/-! ## Distance ranking of donation centers (client side)

`calculateDistance` transcribes the haversine formula of the source
(`R = 6371`, degrees converted to radians, `2·atan2(√a, √(1−a))`).  The source
evaluates it in floating point and rounds the result to two decimals
(`toFixed(2)` then `parseFloat`); the ranking pipeline below is therefore
proved for an arbitrary distance assignment `d` (the parsed, rounded
distances), with the JS stable `Array.prototype.sort` modelled by
`List.mergeSort`. -/

/-- JS `Math.atan2(y, x)`. -/
noncomputable def atan2 (y x : ℝ) : ℝ :=
  if 0 < x then Real.arctan (y / x)
  else if x < 0 then
    (if 0 ≤ y then Real.arctan (y / x) + Real.pi
     else Real.arctan (y / x) - Real.pi)
  else if 0 < y then Real.pi / 2
  else if y < 0 then -(Real.pi / 2)
  else 0

/-- The haversine distance of `calculateDistance` (DonateDispose page lines
739-749), `R = 6371` km (the source rounds this to two decimals before use). -/
noncomputable def calculateDistance (lat1 lon1 lat2 lon2 : ℝ) : ℝ :=
  let R : ℝ := 6371
  let dLat := (lat2 - lat1) * Real.pi / 180
  let dLon := (lon2 - lon1) * Real.pi / 180
  let a := Real.sin (dLat / 2) * Real.sin (dLat / 2) +
    Real.cos (lat1 * Real.pi / 180) * Real.cos (lat2 * Real.pi / 180) *
    Real.sin (dLon / 2) * Real.sin (dLon / 2)
  let c := 2 * atan2 (Real.sqrt a) (Real.sqrt (1 - a))
  R * c

theorem calculateDistance_self (lat lon : ℝ) :
    calculateDistance lat lon lat lon = 0 := by
  have h01 : (0 : ℝ) < 1 := one_pos
  simp [calculateDistance, atan2, sub_self, h01]

/-- The sort-then-filter pipeline of `getUserLocation` and
`findDonationCenters`: sort the centers by distance (stable), keep those
within 15 km. -/
def rankCenters {α : Type} (d : α → ℚ) (centers : List α) : List α :=
  (centers.mergeSort fun a b => d a ≤ d b).filter fun c => d c ≤ 15

/-- C8: for any distance assignment, the ranking pipeline returns exactly the
facilities within 15 km (none omitted, none added), in ascending distance
order; ties keep their input order (any input-ordered, distance-sorted,
in-radius selection survives as a sublist); no facility within radius yields
the empty list; and the haversine distance of a point to itself is zero. -/
theorem rank_by_distance_spec {α : Type} (d : α → ℚ) (centers : List α) :
    (rankCenters d centers).Pairwise (fun a b => d a ≤ d b) ∧
    List.Perm (rankCenters d centers) (centers.filter fun c => d c ≤ 15) ∧
    (∀ c : List α, c.Pairwise (fun a b => d a ≤ d b) → List.Sublist c centers →
      (∀ x ∈ c, d x ≤ 15) → List.Sublist c (rankCenters d centers)) ∧
    ((∀ x ∈ centers, ¬ d x ≤ 15) → rankCenters d centers = []) ∧
    (∀ lat lon : ℝ, calculateDistance lat lon lat lon = 0) := by
  have htrans : ∀ a b c : α, ((d a ≤ d b : Bool) = true) →
      ((d b ≤ d c : Bool) = true) → ((d a ≤ d c : Bool) = true) := by
    intro a b c hab hbc
    simp only [decide_eq_true_eq] at *
    exact le_trans hab hbc
  have htotal : ∀ a b : α, ((d a ≤ d b : Bool) || (d b ≤ d a : Bool)) = true := by
    intro a b
    simp [le_total]
  have hs := List.sorted_mergeSort htrans htotal centers
  refine ⟨?_, ?_, ?_, ?_, calculateDistance_self⟩
  · exact (hs.filter _).imp fun h => of_decide_eq_true h
  · exact (List.mergeSort_perm centers _).filter _
  · intro c hc hsub hall
    have hcb : c.Pairwise (fun a b => (d a ≤ d b : Bool)) :=
      hc.imp fun h => decide_eq_true h
    have h1 := List.sublist_mergeSort htrans htotal hcb hsub
    have h2 := h1.filter fun x => (d x ≤ 15 : Bool)
    rwa [List.filter_eq_self.mpr fun a ha => decide_eq_true (hall a ha)] at h2
  · intro hnone
    simp only [rankCenters, List.filter_eq_nil_iff]
    intro a ha
    simpa using hnone a (List.mem_mergeSort.mp ha)

/-- C8 witness: with facilities at 2 km and 20 km and the 15 km radius, the
pipeline keeps exactly the 2 km facility, in order. -/
theorem rank_by_distance_spec_witness :
    rankCenters (fun q : ℚ => q) [2, 20] = [2] ∧
    (rankCenters (fun q : ℚ => q) [2, 20]).Pairwise (fun a b : ℚ => a ≤ b) ∧
    ([2] : List ℚ).Pairwise (fun a b : ℚ => a ≤ b) ∧
    List.Sublist ([2] : List ℚ) [2, 20] ∧ (∀ x ∈ ([2] : List ℚ), x ≤ 15) ∧
    List.Sublist [2] (rankCenters (fun q : ℚ => q) [2, 20]) := by
  have h := rank_by_distance_spec (fun q : ℚ => q) [2, 20]
  have hms : List.mergeSort ([2, 20] : List ℚ) (fun a b => (a ≤ b : Bool))
      = [2, 20] := List.mergeSort_of_sorted (by decide)
  refine ⟨?_, h.1, by decide, by simp, by decide,
    h.2.2.1 [2] (by decide) (by simp) (by decide)⟩
  simp only [rankCenters]
  rw [hms]
  decide

end MedWise
